import Mathlib

/-!
Verification of the cimfs-rs image-build and path-resolution core.

The development shallowly embeds the two central modules of the crate:

* `src/cimfs/src/object.rs` — the `Object` descriptor and its
  `resolve_relative_path` algorithm.  Windows paths are embedded at the
  level of `std::path::Component` lists (the exact shape over which the
  Rust code iterates); the filesystem is an explicit oracle recording
  which paths canonicalize and which relative paths are files.
* `src/cimfs/src/image.rs` — the `Image` session state machine
  (`create_file`, `commit`, `mount`, `mount_volume`).  Outcomes of the
  native Win32/CimFS calls are supplied by explicit environments, and
  each operation returns, besides its result and successor state, a
  trace of the externally visible events (stream closes, image-handle
  closes, stream writes) that the claims speak about.
-/

namespace Cimfs

/-- Embedding of `std::path::Prefix` (variant order matches the Rust
declaration order, which the derived `Ord` relies on). -/
inductive PrefixKind where
  | verbatim (p : String)
  | verbatimUNC (server share : String)
  | verbatimDisk (d : Char)
  | deviceNS (d : String)
  | unc (server share : String)
  | disk (d : Char)
deriving DecidableEq, Repr, Ord

/-- Embedding of `std::path::Component` (variant order matches Rust). -/
inductive Component where
  | pfx (k : PrefixKind)
  | rootDir
  | curDir
  | parentDir
  | normal (s : String)
deriving DecidableEq, Repr, Ord

/-- Error taxonomy: one constructor per distinct error-return site of the
Rust code (`E_INVALIDARG` for canonicalize/parse failures, propagated
Win32/HRESULT failures, `STATUS_UNSUCCESSFUL` when no image handle is
held, `E_FAIL` for UUID generation, `E_NOINTERFACE` for a missing cached
volume id). -/
inductive Err where
  | invalidPath
  | unresolved
  | notOpen
  | sourceOpenFailed
  | basicInfoFailed
  | sizeFailed
  | reparseFailed
  | createStreamFailed
  | readFailed
  | writeFailed
  | closeSourceFailed
  | commitFailed
  | invalidArg
  | idGenFailed
  | mountFailed
  | noVolumeCached
  | mountPointFailed
deriving DecidableEq, Repr

/-- `struct Object` of `object.rs`: a source path (component list) and the
relative path inside the image.  The relative path is only ever built by
joining single normal components, so it is embedded as the list of those
component strings; it is empty exactly in the unresolved state. -/
structure Object where
  relative_path : List String
  src : List Component
deriving DecidableEq, Repr

/-- `Object::new`: empty relative path. -/
def Object.new (src : List Component) : Object := ⟨[], src⟩

/-- Filesystem oracle: which source paths canonicalize successfully, and
which (current-directory-relative) paths are files — the two queries
`resolve_relative_path` makes. -/
structure Fs where
  canonicalizeOk : List Component → Bool
  isFile : List String → Bool

/-- Lexicographic comparison of lists, as Rust compares `PathBuf`s by
their component iterators (a strict prefix sorts first). -/
def compareLex (cmp : α → α → Ordering) : List α → List α → Ordering
  | [], [] => .eq
  | [], _ :: _ => .lt
  | _ :: _, [] => .gt
  | a :: as, b :: bs => (cmp a b).then (compareLex cmp as bs)

/-- The derived `Ord` of `struct Object`: `relative_path` first, then
`src` (Rust field order). -/
def Object.cmp (a b : Object) : Ordering :=
  (compareLex compare a.relative_path b.relative_path).then
    (compareLex compare a.src b.src)

/-- `BTreeSet::insert` on the sorted, duplicate-free list that embeds the
ancestor set (an equal element leaves the set unchanged). -/
def btreeInsert (o : Object) : List Object → List Object
  | [] => [o]
  | x :: xs =>
    match Object.cmp o x with
    | .lt => o :: x :: xs
    | .eq => x :: xs
    | .gt => x :: btreeInsert o xs

/-- State of the component scan inside `resolve_relative_path`: the
`relative_path` accumulator and the `root` variable (a path, kept as its
component list). -/
structure ScanState where
  relative : List String
  root : Option (List Component)
deriving DecidableEq, Repr

/-- One iteration of the `for c in self.src.components()` loop:
verbatim/UNC-share/normal components are joined onto the relative path;
disk-like prefixes and the root directory overwrite `root`; `.` and `..`
are appended to `root` (or start it). -/
def scanComponent (s : ScanState) (c : Component) : ScanState :=
  match c with
  | .pfx (.verbatim p) => { s with relative := s.relative ++ [p] }
  | .pfx (.verbatimUNC _ share) => { s with relative := s.relative ++ [share] }
  | .pfx (.unc _ share) => { s with relative := s.relative ++ [share] }
  | .pfx k => { s with root := some [Component.pfx k] }
  | .rootDir => { s with root := some [Component.rootDir] }
  | .curDir => { s with root := some ((s.root.getD []) ++ [Component.curDir]) }
  | .parentDir => { s with root := some ((s.root.getD []) ++ [Component.parentDir]) }
  | .normal p => { s with relative := s.relative ++ [p] }

/-- The whole component scan of a source path. -/
def scanComponents (l : List Component) : ScanState :=
  l.foldl scanComponent ⟨[], none⟩

/-- The string a component contributes to the relative path, if any. -/
def Component.contrib : Component → Option String
  | .pfx (.verbatim p) => some p
  | .pfx (.verbatimUNC _ share) => some share
  | .pfx (.unc _ share) => some share
  | .normal p => some p
  | _ => none

/-- `self.relative_path.ancestors().skip(1).filter(|a| !a.is_empty())`:
the nonempty strict ancestors of a relative path, deepest first. -/
def strictAncestors (l : List String) : List (List String) :=
  (List.range l.length).reverse.filterMap fun i =>
    if i = 0 then none else some (l.take i)

/-- Result of a `resolve_relative_path(false)` call: the descriptor after
the call, the result, and the list of paths canonicalized during the call
(the call's filesystem side effects). -/
structure ResolveNoAncOut where
  obj : Object
  result : Except Err Unit
  canon : List (List Component)
deriving Repr

/-- `Object::resolve_relative_path` with `parse_ancestors = false`: if the
relative path is already nonempty, do nothing; otherwise canonicalize the
source (existence check; failure is `E_INVALIDARG`/`InvalidPath`), scan
its components and store the resulting relative path. -/
def resolveNoAnc (fs : Fs) (o : Object) : ResolveNoAncOut :=
  if o.relative_path.isEmpty then
    if fs.canonicalizeOk o.src then
      ⟨⟨(scanComponents o.src).relative, o.src⟩, .ok (), [o.src]⟩
    else ⟨o, .error .invalidPath, [o.src]⟩
  else ⟨o, .ok (), []⟩

/-- The ancestor loop of `resolve_relative_path(parse_ancestors = true)`:
walk the nonempty strict ancestors deepest-first; `break` at the first
one that is a file; otherwise build `Object::new(root.join(a))`, resolve
it without ancestors (`?` propagates its failure) and insert it into the
`BTreeSet`.  Returns the result together with the canonicalize trace of
the inner resolutions. -/
def ancLoop (fs : Fs) (root : List Component) :
    List (List String) → List Object → Except Err (List Object) × List (List Component)
  | [], acc => (.ok acc, [])
  | a :: rest, acc =>
    if fs.isFile a then (.ok acc, [])
    else
      let r := resolveNoAnc fs (Object.new (root ++ a.map Component.normal))
      match r.result with
      | .error e => (.error e, r.canon)
      | .ok () =>
        let r2 := ancLoop fs root rest (btreeInsert r.obj acc)
        (r2.1, r.canon ++ r2.2)

/-- Result of a full `resolve_relative_path` call. -/
structure ResolveOut where
  obj : Object
  result : Except Err (List Object)
  canon : List (List Component)
deriving Repr

/-- `Object::resolve_relative_path` (`object.rs` lines 33–98).  The whole
body runs only when the stored relative path is empty; the source is
canonicalized (existence check), its components are scanned, the
relative path is stored, and, when `parse_ancestors` is set, the
ancestor set is collected with `root` taken from the scan. -/
def Object.resolve_relative_path (fs : Fs) (o : Object) (parse_ancestors : Bool) :
    ResolveOut :=
  if o.relative_path.isEmpty then
    if fs.canonicalizeOk o.src then
      let s := scanComponents o.src
      let o2 : Object := ⟨s.relative, o.src⟩
      if parse_ancestors then
        let r := ancLoop fs (s.root.getD []) (strictAncestors s.relative) []
        ⟨o2, r.1, o.src :: r.2⟩
      else ⟨o2, .ok [], [o.src]⟩
    else ⟨o, .error .invalidPath, [o.src]⟩
  else ⟨o, .ok [], []⟩

/-- `Object::get_relative_path`: fails while unresolved. -/
def Object.get_relative_path (o : Object) : Except Err (List String) :=
  if o.relative_path.isEmpty then .error .unresolved else .ok o.relative_path

/-! ## The `Image` session (`image.rs`) -/

/-- Volume identifiers (the 128-bit GUIDs) are embedded as naturals. -/
abbrev Guid := Nat

/-- `struct Image`: name, root folder, optional image handle (the
`CimImageHandleWrapper` wrapping a raw engine handle), optional cached
volume id. -/
structure ImageState where
  name : String
  root_folder : String
  image_handle : Option Nat
  volume : Option Guid
deriving DecidableEq, Repr

/-- `Image::new`. -/
def Image.new (root_folder name : String) : ImageState :=
  ⟨name, root_folder, none, none⟩

/-- `Image::with_volume`. -/
def Image.with_volume (st : ImageState) (g : Guid) : ImageState :=
  { st with volume := some g }

/-- `FILE_ATTRIBUTE_DIRECTORY`. -/
def FILE_ATTRIBUTE_DIRECTORY : Nat := 16

/-- `FILE_ATTRIBUTE_REPARSE_POINT`. -/
def FILE_ATTRIBUTE_REPARSE_POINT : Nat := 1024

/-- Outcomes of the native calls `Image::create_file` makes, in program
order: opening the source (`CreateFileW`), querying basic info
(`GetFileInformationByHandleEx`) and the resulting attribute bitmask,
querying the size (`GetFileSizeEx`), the reparse-data query
(`DeviceIoControl`), creating the engine file/stream (`CimCreateFile`),
the successive `ReadFile` outcomes (`none` = call failed, `some n` =
`n` bytes read), the successive `CimWriteStream` outcomes, and the final
`CloseHandle` on the source. -/
structure CreateFileEnv where
  createFileOk : Bool
  basicInfoOk : Bool
  attributes : Nat
  fileSizeOk : Bool
  fileSize : Nat
  reparseOk : Bool
  cimCreateFileOk : Bool
  reads : List (Option Nat)
  writeOks : List Bool
  closeHandleOk : Bool
deriving Repr

/-- The `loop { ReadFile; total += read; CimWriteStream; if read == 0
break; }` body: returns the loop's outcome and the sizes passed to
`CimWriteStream`, in order.  Each read is followed by a write of the
bytes just read — including the final zero-length write issued when a
read returns 0, after which the loop breaks.  An exhausted oracle is
treated as a failing call. -/
def copyLoop : List (Option Nat) → List Bool → Except Err Unit × List Nat
  | [], _ => (.error .readFailed, [])
  | none :: _, _ => (.error .readFailed, [])
  | some r :: rs, ws =>
    match ws with
    | [] => (.error .writeFailed, [r])
    | false :: _ => (.error .writeFailed, [r])
    | true :: ws2 =>
      if r = 0 then (.ok (), [r])
      else
        let t := copyLoop rs ws2
        (t.1, r :: t.2)

/-- Everything observable about one `Image::create_file` call: the
session state after the call, the result, whether `CimCreateFile`
produced a stream handle, how many times `CimCloseStream` and
`CimCloseImage` ran during the call (the wrapper's `Drop` runs
`CimCloseImage` whenever the taken wrapper is not restored), the
`CimWriteStream` sizes, and the `FileSize` recorded in the metadata. -/
structure CreateFileOut where
  state : ImageState
  result : Except Err Unit
  streamCreated : Bool
  streamCloses : Nat
  imageCloses : Nat
  writes : List Nat
  metaFileSize : Nat
deriving Repr

/-- `Image::create_file` (`image.rs` lines 109–308).  The image handle is
`take`n from the session at entry; every `?` failure after that point
drops the wrapper (closing the image handle) without restoring it, and
only the final success path stores the wrapper back.  The stream handle
obtained from `CimCreateFile` is closed by the single `CimCloseStream`
call that only the fall-through path reaches. -/
def Image.create_file (st : ImageState) (env : CreateFileEnv) : CreateFileOut :=
  match st.image_handle with
  | none => ⟨st, .error .notOpen, false, 0, 0, [], 0⟩
  | some h =>
    let st2 := { st with image_handle := none }
    if ¬ env.createFileOk then
      ⟨st2, .error .sourceOpenFailed, false, 0, 1, [], 0⟩
    else if ¬ env.basicInfoOk then
      ⟨st2, .error .basicInfoFailed, false, 0, 1, [], 0⟩
    else
      let isDir := env.attributes &&& FILE_ATTRIBUTE_DIRECTORY ≠ 0
      let metaSize : Option Nat :=
        if env.attributes &&& FILE_ATTRIBUTE_DIRECTORY ≠ 0 then some 0
        else if env.fileSizeOk then some env.fileSize else none
      match metaSize with
      | none => ⟨st2, .error .sizeFailed, false, 0, 1, [], 0⟩
      | some fsz =>
        if env.attributes &&& FILE_ATTRIBUTE_REPARSE_POINT ≠ 0 ∧ ¬ env.reparseOk then
          ⟨st2, .error .reparseFailed, false, 0, 1, [], fsz⟩
        else if ¬ env.cimCreateFileOk then
          ⟨st2, .error .createStreamFailed, false, 0, 1, [], fsz⟩
        else if isDir then
          if env.closeHandleOk then
            ⟨{ st2 with image_handle := some h }, .ok (), true, 1, 0, [], fsz⟩
          else
            ⟨st2, .error .closeSourceFailed, true, 1, 1, [], fsz⟩
        else
          let t := copyLoop env.reads env.writeOks
          match t.1 with
          | .error e => ⟨st2, .error e, true, 0, 1, t.2, fsz⟩
          | .ok () =>
            if env.closeHandleOk then
              ⟨{ st2 with image_handle := some h }, .ok (), true, 1, 0, t.2, fsz⟩
            else
              ⟨st2, .error .closeSourceFailed, true, 1, 1, t.2, fsz⟩

/-- Observables of one `Image::commit` call: state afterward, result,
number of `CimCommitImage` calls, number of `CimCloseImage` calls. -/
structure CommitOut where
  state : ImageState
  result : Except Err Unit
  engineCalls : Nat
  imageCloses : Nat
deriving Repr

/-- `Image::commit` (`image.rs` lines 312–326): `take` the handle (error
`STATUS_UNSUCCESSFUL` when absent), call `CimCommitImage`, propagate a
failing `HRESULT`; the taken wrapper is dropped — and the handle thereby
closed — on success and on failure alike. -/
def Image.commit (st : ImageState) (engineOk : Bool) : CommitOut :=
  match st.image_handle with
  | none => ⟨st, .error .notOpen, 0, 0⟩
  | some _ =>
    ⟨{ st with image_handle := none },
      if engineOk then .ok () else .error .commitFailed, 1, 1⟩

/-- Outcomes of the native calls `Image::mount` makes: the result of
`GUID::try_from` on a caller-supplied string, the `UuidCreate` outcome
(`none` = nonzero status), and whether `CimMountImage` succeeds. -/
structure MountEnv where
  parsed : Option Guid
  uuid : Option Guid
  mountOk : Bool
deriving Repr

/-- Observables of one `Image::mount` call: state afterward, result,
number of `CimMountImage` calls, and the identifier handed to the
engine (when the call reached the engine). -/
structure MountOut where
  state : ImageState
  result : Except Err Guid
  engineCalls : Nat
  engineGuid : Option Guid
deriving Repr

/-- `Image::mount` (`image.rs` lines 332–365): pick the identifier —
parse the explicit argument (`E_INVALIDARG` on parse failure), else
`self.volume.take()`, else `UuidCreate` (`E_FAIL` on nonzero status) —
then call `CimMountImage` and only on success store the identifier in
`self.volume`. -/
def Image.mount (st : ImageState) (volume_guid : Option String) (env : MountEnv) :
    MountOut :=
  let pick : Except Err (Guid × ImageState) :=
    match volume_guid with
    | some _ =>
      match env.parsed with
      | some g => .ok (g, st)
      | none => .error .invalidArg
    | none =>
      match st.volume with
      | some g => .ok (g, { st with volume := none })
      | none =>
        match env.uuid with
        | some g => .ok (g, st)
        | none => .error .idGenFailed
  match pick with
  | .error e => ⟨st, .error e, 0, none⟩
  | .ok (g, st2) =>
    if env.mountOk then
      ⟨{ st2 with volume := some g }, .ok g, 1, some g⟩
    else
      ⟨st2, .error .mountFailed, 1, some g⟩

/-- `Image::mount_volume` (`image.rs` lines 371–403): requires a cached
volume id (`E_NOINTERFACE` otherwise), then calls
`SetVolumeMountPointW`, propagating its failure. -/
def Image.mount_volume (st : ImageState) (setMountPointOk : Bool) : Except Err Unit :=
  match st.volume with
  | none => .error .noVolumeCached
  | some _ =>
    if setMountPointOk then .ok () else .error .mountPointFailed

/-- The `ReadFile` byte counts a well-behaved source file of `n` bytes
produces against the fixed 64 KiB buffer: full chunks, then the
remainder, each call returning `min 65536 remaining`. -/
def chunkSizes (n : Nat) : List Nat :=
  if n = 0 then [] else min n 65536 :: chunkSizes (n - 65536)
termination_by n
decreasing_by exact Nat.sub_lt (Nat.pos_of_ne_zero (by assumption)) (by omega)

/-- Read oracle of a well-behaved `n`-byte file: the nonzero chunks, then
the zero read signalling end of file. -/
def happyReads (n : Nat) : List (Option Nat) :=
  (chunkSizes n).map some ++ [some 0]

/-- A fully successful environment for `Image::create_file` on a source
with the given attributes and size. -/
def happyEnv (attributes n : Nat) : CreateFileEnv :=
  ⟨true, true, attributes, true, n, true, true, happyReads n,
    List.replicate ((chunkSizes n).length + 1) true, true⟩

/-! ## Concrete fixtures used by counterexamples and witnesses -/

/-- A filesystem on which every path canonicalizes and nothing is a file. -/
def fsTrue : Fs := ⟨fun _ => true, fun _ => false⟩

/-- A filesystem on which every path canonicalizes and exactly the
relative path `a\b` is a file. -/
def fsFileAB : Fs := ⟨fun _ => true, fun l => l == ["a", "b"]⟩

/-- The source path `C:\` — only a drive and a root component. -/
def srcCRoot : List Component := [.pfx (.disk 'C'), .rootDir]

/-- The source path `C:\a\b\f`. -/
def srcABF : List Component :=
  [.pfx (.disk 'C'), .rootDir, .normal "a", .normal "b", .normal "f"]

/-- A session currently holding an image handle. -/
def stOpen : ImageState := ⟨"img", "root", some 1, none⟩

/-! ## Helper lemmas -/

/-- The component scan accumulates exactly the contributed strings. -/
theorem foldl_scanComponent_relative (l : List Component) (s : ScanState) :
    (l.foldl scanComponent s).relative = s.relative ++ l.filterMap Component.contrib := by
  induction l generalizing s with
  | nil => simp
  | cons c l ih =>
    cases c with
    | pfx k =>
      cases k <;>
        simp [List.foldl_cons, ih, scanComponent, Component.contrib, List.append_assoc]
    | rootDir => simp [List.foldl_cons, ih, scanComponent, Component.contrib]
    | curDir => simp [List.foldl_cons, ih, scanComponent, Component.contrib]
    | parentDir => simp [List.foldl_cons, ih, scanComponent, Component.contrib]
    | normal p =>
      simp [List.foldl_cons, ih, scanComponent, Component.contrib, List.append_assoc]

/-- The relative path produced by the scan. -/
theorem scanComponents_relative (l : List Component) :
    (scanComponents l).relative = l.filterMap Component.contrib := by
  simpa [scanComponents] using foldl_scanComponent_relative l ⟨[], none⟩

/-- A call on a descriptor whose relative path is already nonempty is a
complete no-op: it succeeds with an empty ancestor set, mutates nothing
and canonicalizes nothing. -/
theorem resolve_relative_path_noop (fs : Fs) (o : Object) (pa : Bool)
    (h : o.relative_path ≠ []) :
    o.resolve_relative_path fs pa = ⟨o, .ok [], []⟩ := by
  unfold Object.resolve_relative_path
  simp [List.isEmpty_iff, h]

/-- `compare s s = .eq` for strings. -/
theorem string_compare_self (s : String) : compare s s = .eq := by
  simp [compare, compareOfLessAndEq, String.lt_irrefl]

/-- A strictly shorter take of the same list sorts strictly first under
the lexicographic path order. -/
theorem compareLex_take_lt (l : List String) :
    ∀ i j, i < j → j ≤ l.length → compareLex compare (l.take i) (l.take j) = .lt := by
  induction l with
  | nil => intro i j hij hj; simp at hj; omega
  | cons a l ih =>
    intro i j hij hj
    cases i with
    | zero =>
      cases j with
      | zero => omega
      | succ j => simp [compareLex]
    | succ i =>
      cases j with
      | zero => omega
      | succ j =>
        simp only [List.take_succ_cons, compareLex, string_compare_self]
        have := ih i j (by omega) (by simpa using hj)
        simpa [Ordering.then] using this

/-- Object comparison is decided by the relative paths when those
already compare strictly. -/
theorem object_cmp_lt_of_rel (a b : Object)
    (h : compareLex compare a.relative_path b.relative_path = .lt) :
    Object.cmp a b = .lt := by
  unfold Object.cmp
  rw [h]
  rfl

/-- Inserting an element smaller than everything present prepends it. -/
theorem btreeInsert_of_lt (o : Object) (l : List Object)
    (h : ∀ x ∈ l, Object.cmp o x = .lt) :
    btreeInsert o l = o :: l := by
  cases l with
  | nil => rfl
  | cons x xs => simp [btreeInsert, h x (by simp)]

/-- The `root` variable of the scan only ever holds components that
contribute nothing to a relative path (drive prefixes, the root
directory, `.` and `..`). -/
theorem foldl_scanComponent_rootClean (l : List Component) (s : ScanState)
    (h : (s.root.getD []).filterMap Component.contrib = []) :
    (((l.foldl scanComponent s).root.getD []).filterMap Component.contrib) = [] := by
  induction l generalizing s with
  | nil => exact h
  | cons c l ih =>
    cases c with
    | pfx k =>
      cases k with
      | verbatim p => exact ih _ (by simpa [scanComponent] using h)
      | verbatimUNC sv sh => exact ih _ (by simpa [scanComponent] using h)
      | unc sv sh => exact ih _ (by simpa [scanComponent] using h)
      | verbatimDisk d => exact ih _ (by simp [scanComponent, Component.contrib])
      | deviceNS d => exact ih _ (by simp [scanComponent, Component.contrib])
      | disk d => exact ih _ (by simp [scanComponent, Component.contrib])
    | rootDir => exact ih _ (by simp [scanComponent, Component.contrib])
    | curDir =>
      exact ih _ (by simp [scanComponent, List.filterMap_append, h, Component.contrib])
    | parentDir =>
      exact ih _ (by simp [scanComponent, List.filterMap_append, h, Component.contrib])
    | normal p => exact ih _ (by simpa [scanComponent] using h)

/-- The scan's final `root` contributes nothing. -/
theorem scanComponents_rootClean (l : List Component) :
    ((scanComponents l).root.getD []).filterMap Component.contrib = [] :=
  foldl_scanComponent_rootClean l ⟨[], none⟩ (by simp)

/-- Scanning a clean root joined with normal components yields exactly
those components as the relative path (ancestor descriptors resolve to
their own ancestor path). -/
theorem scan_root_join (root : List Component) (a : List String)
    (h : root.filterMap Component.contrib = []) :
    (scanComponents (root ++ a.map Component.normal)).relative = a := by
  rw [scanComponents_relative, List.filterMap_append, h, List.nil_append,
    List.filterMap_map]
  have hc : (Component.contrib ∘ Component.normal) = some := by
    funext s; rfl
  rw [hc, List.filterMap_some]

/-- When no ancestor is a file and every ancestor source canonicalizes,
the ancestor loop succeeds and returns the fold of set inserts. -/
theorem ancLoop_ok (fs : Fs) (root : List Component)
    (hroot : root.filterMap Component.contrib = []) :
    ∀ (as : List (List String)) (acc : List Object),
      (∀ a ∈ as, fs.isFile a = false) →
      (∀ a ∈ as, fs.canonicalizeOk (root ++ a.map Component.normal) = true) →
      (ancLoop fs root as acc).1
        = .ok (as.foldl (fun acc a =>
            btreeInsert ⟨a, root ++ a.map Component.normal⟩ acc) acc) := by
  intro as
  induction as with
  | nil => intro acc _ _; rfl
  | cons a as ih =>
    intro acc h1 h2
    unfold ancLoop
    rw [if_neg (by simp [h1 a (by simp)])]
    simp only [resolveNoAnc, Object.new, List.isEmpty_nil, if_pos,
      h2 a (by simp), if_true]
    rw [scan_root_join root a hroot]
    exact ih _ (fun b hb => h1 b (by simp [hb])) (fun b hb => h2 b (by simp [hb]))

/-- Folding set inserts over a strictly descending index list produces
the reversed (hence ascending) list. -/
theorem foldl_btreeInsert_desc (f : Nat → Object) :
    ∀ (idxs : List Nat) (acc : List Object),
      idxs.Pairwise (fun i j => Object.cmp (f j) (f i) = .lt) →
      (∀ i ∈ idxs, ∀ x ∈ acc, Object.cmp (f i) x = .lt) →
      idxs.foldl (fun acc i => btreeInsert (f i) acc) acc
        = idxs.reverse.map f ++ acc := by
  intro idxs
  induction idxs with
  | nil => intro acc _ _; simp
  | cons i idxs ih =>
    intro acc hp hacc
    simp only [List.foldl_cons]
    rw [btreeInsert_of_lt (f i) acc (hacc i (by simp))]
    rw [ih (f i :: acc) (List.pairwise_cons.mp hp).2 ?_]
    · simp
    · intro j hj x hx
      rcases List.mem_cons.mp hx with h | h
      · rw [h]; exact (List.pairwise_cons.mp hp).1 j hj
      · exact hacc j (by simp [hj]) x h

theorem filterMap_take_of_ne_zero (l : List String) :
    ∀ (r : List Nat), (∀ i ∈ r, i ≠ 0) →
      r.filterMap (fun i => if i = 0 then none else some (l.take i))
        = r.map (l.take ·) := by
  intro r
  induction r with
  | nil => intro _; rfl
  | cons i r ih =>
    intro h
    simp only [List.filterMap_cons, List.map_cons, if_neg (h i (by simp))]
    rw [ih (fun j hj => h j (by simp [hj]))]

/-- The nonempty strict ancestors are the takes of lengths
`l.length - 1` down to `1`. -/
theorem strictAncestors_eq (l : List String) :
    strictAncestors l = ((List.range' 1 (l.length - 1)).reverse).map (l.take ·) := by
  unfold strictAncestors
  cases hn : l.length with
  | zero => simp
  | succ m =>
    have hr : List.range (m + 1) = 0 :: List.range' 1 m := by
      rw [List.range_eq_range', List.range'_succ]
    rw [hr]
    simp only [List.reverse_cons, Nat.succ_sub_one]
    rw [List.filterMap_append]
    rw [filterMap_take_of_ne_zero l ((List.range' 1 m).reverse)
      (fun i hi => by
        have := List.mem_range'_1.mp (List.mem_reverse.mp hi)
        omega)]
    simp

/-- The ancestor set the resolution of a path with relative components
`rel` and scan root `root` produces: one descriptor per nonempty strict
ancestor, ascending (parents first), each with source `root.join(a)`. -/
def expectedAncestors (root : List Component) (rel : List String) : List Object :=
  (List.range' 1 (rel.length - 1)).map fun i =>
    ⟨rel.take i, root ++ (rel.take i).map Component.normal⟩

theorem expectedAncestors_length (root : List Component) (rel : List String) :
    (expectedAncestors root rel).length = rel.length - 1 := by
  simp [expectedAncestors]

/-- Every earlier element of the expected ancestor set is a strict
ancestor (a proper leading segment) of every later one: parents sort
before children, and all elements are distinct. -/
theorem expectedAncestors_chain (root : List Component) (rel : List String) :
    (expectedAncestors root rel).Pairwise
      (fun x y => x.relative_path = y.relative_path.take x.relative_path.length
        ∧ x ≠ y) := by
  unfold expectedAncestors
  rw [List.pairwise_map]
  have hp := (List.Pairwise.and_mem).mp
    (List.pairwise_lt_range' 1 (rel.length - 1))
  refine hp.imp ?_
  intro i j ⟨hi, hj, hij⟩
  have hi2 := List.mem_range'_1.mp hi
  have hj2 := List.mem_range'_1.mp hj
  have hilen : (rel.take i).length = i := by
    rw [List.length_take]; omega
  dsimp only
  refine ⟨?_, ?_⟩
  · rw [hilen, List.take_take]
    congr 1
    omega
  · intro he
    have hjlen : (rel.take j).length = j := by
      rw [List.length_take]; omega
    have hlen := congrArg (fun o => o.relative_path.length) he
    dsimp only at hlen
    rw [hilen, hjlen] at hlen
    omega

/-- Unfolding equation of `chunkSizes`. -/
theorem chunkSizes_eq (n : Nat) :
    chunkSizes n = if n = 0 then [] else min n 65536 :: chunkSizes (n - 65536) := by
  rw [chunkSizes]

/-- Every chunk a well-behaved file produces is nonzero and at most the
64 KiB buffer size. -/
theorem chunkSizes_bounds : ∀ n, ∀ x ∈ chunkSizes n, x ≠ 0 ∧ x ≤ 65536 := by
  intro n
  induction n using Nat.strong_induction_on with
  | _ n ih =>
    intro x hx
    rw [chunkSizes_eq] at hx
    by_cases h : n = 0
    · simp [h] at hx
    · rw [if_neg h] at hx
      rcases List.mem_cons.mp hx with h2 | h2
      · subst h2
        constructor
        · have : 0 < n := Nat.pos_of_ne_zero h
          omega
        · exact Nat.min_le_right n 65536
      · exact ih (n - 65536) (by omega) x h2

/-- The copy loop on a well-behaved read oracle: each nonzero chunk is
written in turn, the final zero-length read is written as the zero-length
end-of-stream write, and the loop succeeds. -/
theorem copyLoop_happy :
    ∀ (l : List Nat), (∀ x ∈ l, x ≠ 0) →
      copyLoop (l.map some ++ [some 0]) (List.replicate (l.length + 1) true)
        = (.ok (), l ++ [0]) := by
  intro l
  induction l with
  | nil => intro _; rfl
  | cons a l ih =>
    intro h
    rw [List.map_cons, List.cons_append, List.length_cons, List.replicate_succ]
    unfold copyLoop
    dsimp only
    rw [if_neg (h a (by simp))]
    rw [ih (fun x hx => h x (by simp [hx]))]
    rfl

/-! ## C3 — resolved relative paths -/

/-- C3, counterexample: on the source path `C:\` (drive prefix and root
directory only, which canonicalizes — the drive root exists), resolution
returns success yet the stored `relative_path` is empty, refuting the
claim that after every successful resolution the relative path is
non-empty. -/
theorem c3_counterexample :
    (Object.resolve_relative_path fsTrue (Object.new srcCRoot) true).result = .ok []
      ∧ (Object.resolve_relative_path fsTrue (Object.new srcCRoot) true).obj.relative_path
          = [] :=
  ⟨rfl, rfl⟩

/-- C3 (amended): after resolution of an unresolved descriptor whose
source canonicalizes, the stored relative path is exactly the strings
contributed by the source's normal, verbatim and UNC-share components —
so it never contains a root, drive or `.`/`..` component — and it is
non-empty iff the source has at least one contributing component (a
source of only root/prefix components resolves to the empty relative
path and the descriptor stays in the unresolved state). -/
theorem c3_resolved_relative_path (fs : Fs) (o : Object) (pa : Bool)
    (h0 : o.relative_path = [])
    (hc : fs.canonicalizeOk o.src = true) :
    (o.resolve_relative_path fs pa).obj.relative_path
        = o.src.filterMap Component.contrib
      ∧ ((o.resolve_relative_path fs pa).obj.relative_path ≠ []
          ↔ ∃ c ∈ o.src, Component.contrib c ≠ none) := by
  have hobj : (o.resolve_relative_path fs pa).obj.relative_path
      = o.src.filterMap Component.contrib := by
    unfold Object.resolve_relative_path
    simp [h0, hc, scanComponents_relative]
    cases pa <;> simp [scanComponents_relative]
  refine ⟨hobj, ?_⟩
  rw [hobj]
  constructor
  · intro h
    by_contra hn
    push_neg at hn
    exact h (by simpa [List.filterMap_eq_nil_iff] using hn)
  · intro ⟨c, hc1, hc2⟩ h
    rw [List.filterMap_eq_nil_iff] at h
    exact hc2 (h c hc1)

/-- C3 witness: instantiating the amended statement on `C:\a\b\f`. -/
theorem c3_witness :
    (Object.resolve_relative_path fsTrue (Object.new srcABF) false).obj.relative_path
        = srcABF.filterMap Component.contrib
      ∧ ((Object.resolve_relative_path fsTrue (Object.new srcABF) false).obj.relative_path
            ≠ [] ↔ ∃ c ∈ srcABF, Component.contrib c ≠ none) :=
  c3_resolved_relative_path fsTrue (Object.new srcABF) false rfl rfl

/-! ## C8 — idempotence of resolution -/

/-- C8, counterexample: for the source `C:\` the first resolution
succeeds (with an empty relative path), and a second call on the
resulting descriptor canonicalizes the source again — its canonicalize
trace is `[C:\]`, not empty — refuting the claim that the second call
performs no side effects (no re-canonicalization) for every descriptor
whose first call succeeded. -/
theorem c8_counterexample :
    (Object.resolve_relative_path fsTrue (Object.new srcCRoot) true).result = .ok []
      ∧ ((Object.resolve_relative_path fsTrue
            (Object.new srcCRoot) true).obj.resolve_relative_path fsTrue true).canon
          = [srcCRoot] :=
  ⟨rfl, rfl⟩

/-- C8 (amended): resolution is idempotent for every descriptor whose
first call produced a non-empty relative path: the second call (under
any filesystem state and either `parse_ancestors` flag) succeeds, leaves
the descriptor exactly as the first call left it, and performs no
filesystem side effect (its canonicalize trace is empty).  When the
first call produced an empty relative path the descriptor remains in the
unresolved state and the second call re-runs resolution, including
re-canonicalization of the source. -/
theorem c8_idempotent (o : Object) (fs1 fs2 : Fs) (pa1 pa2 : Bool)
    (h : (o.resolve_relative_path fs1 pa1).obj.relative_path ≠ []) :
    (o.resolve_relative_path fs1 pa1).obj.resolve_relative_path fs2 pa2
      = ⟨(o.resolve_relative_path fs1 pa1).obj, .ok [], []⟩ :=
  resolve_relative_path_noop fs2 _ pa2 h

/-- C8 witness: second resolution of `C:\a\b\f` is a no-op. -/
theorem c8_witness :
    (Object.resolve_relative_path fsTrue
        (Object.new srcABF) true).obj.resolve_relative_path fsTrue true
      = ⟨(Object.resolve_relative_path fsTrue (Object.new srcABF) true).obj, .ok [], []⟩ :=
  c8_idempotent (Object.new srcABF) fsTrue fsTrue true true (by decide)

/-! ## C10 — the ancestor set of a second resolution -/

/-- C10 (confirmed): calling `resolve_relative_path(parse_ancestors =
true)` again on an already-resolved descriptor (non-empty relative path)
returns the empty ancestor set, whatever ancestor set the first call
returned: the ancestor set is only computed by the call that performs
resolution. -/
theorem c10_second_call_empty_ancestors (o : Object) (fs fs2 : Fs) (l : List Object)
    (_h1 : (o.resolve_relative_path fs true).result = .ok l)
    (h2 : (o.resolve_relative_path fs true).obj.relative_path ≠ []) :
    ((o.resolve_relative_path fs true).obj.resolve_relative_path fs2 true).result
      = .ok [] := by
  rw [resolve_relative_path_noop fs2 _ true h2]

/-- C10 witness: on `C:\a\b\f` the first resolution returns the
two-element ancestor set `{a, a\b}`, and the second returns the empty
set. -/
theorem c10_witness :
    ((Object.resolve_relative_path fsTrue
        (Object.new srcABF) true).obj.resolve_relative_path fsTrue true).result
      = .ok [] :=
  c10_second_call_empty_ancestors (Object.new srcABF) fsTrue fsTrue
    [⟨["a"], [.rootDir, .normal "a"]⟩,
      ⟨["a", "b"], [.rootDir, .normal "a", .normal "b"]⟩]
    rfl (by decide)

/-! ## C4 — the ancestor set -/

/-- C4, counterexample: source `C:\a\b\f` on a filesystem where the
relative ancestor `a\b` exists as a file while `a` is a directory (it is
not a file and its source canonicalizes).  The resolved path has the two
strict ancestors `a\b` and `a`, and per the claim the call should return
exactly one descriptor — for `a`, the one ancestor directory level —
but the loop `break`s at the file `a\b` and returns the empty set. -/
theorem c4_counterexample :
    (Object.resolve_relative_path fsFileAB (Object.new srcABF) true).result = .ok []
      ∧ strictAncestors
          (Object.resolve_relative_path fsFileAB (Object.new srcABF) true).obj.relative_path
          = [["a", "b"], ["a"]]
      ∧ fsFileAB.isFile ["a"] = false
      ∧ fsFileAB.canonicalizeOk [.rootDir, .normal "a"] = true :=
  ⟨rfl, rfl, rfl, rfl⟩

/-- C4 (amended): when resolution runs on an unresolved descriptor whose
source canonicalizes, **no strict ancestor of the resolved relative path
is a file**, and every ancestor source canonicalizes (the ancestor
levels exist on disk), then `resolve_relative_path(parse_ancestors =
true)` returns exactly one descriptor per nonempty strict ancestor —
`N` of them for a relative path of `N + 1` components — with no
duplicates, ordered so that every element is a strict ancestor of every
later element (parents sort before children).  The claim's
per-ancestor file exclusion does not hold in general: the loop stops at
the first ancestor that is a file, also dropping all ancestors above it
(see the counterexample). -/
theorem c4_ancestor_set (o : Object) (fs : Fs)
    (h0 : o.relative_path = [])
    (hc : fs.canonicalizeOk o.src = true)
    (hfiles : ∀ a ∈ strictAncestors (scanComponents o.src).relative,
      fs.isFile a = false)
    (hcanon : ∀ a ∈ strictAncestors (scanComponents o.src).relative,
      fs.canonicalizeOk ((scanComponents o.src).root.getD []
        ++ a.map Component.normal) = true) :
    (o.resolve_relative_path fs true).result
        = .ok (expectedAncestors ((scanComponents o.src).root.getD [])
            (scanComponents o.src).relative)
      ∧ (expectedAncestors ((scanComponents o.src).root.getD [])
          (scanComponents o.src).relative).length
          = (scanComponents o.src).relative.length - 1
      ∧ (expectedAncestors ((scanComponents o.src).root.getD [])
          (scanComponents o.src).relative).Nodup
      ∧ (expectedAncestors ((scanComponents o.src).root.getD [])
          (scanComponents o.src).relative).Pairwise
          (fun x y => x.relative_path = y.relative_path.take x.relative_path.length
            ∧ x ≠ y) := by
  refine ⟨?_, expectedAncestors_length _ _,
    (expectedAncestors_chain _ _).imp (fun h => h.2),
    expectedAncestors_chain _ _⟩
  have hres : (o.resolve_relative_path fs true).result
      = (ancLoop fs ((scanComponents o.src).root.getD [])
          (strictAncestors (scanComponents o.src).relative) []).1 := by
    unfold Object.resolve_relative_path
    simp [h0, hc]
  rw [hres, ancLoop_ok fs _ (scanComponents_rootClean o.src) _ [] hfiles hcanon]
  congr 1
  rw [strictAncestors_eq, List.foldl_map]
  rw [foldl_btreeInsert_desc
    (fun i => ⟨(scanComponents o.src).relative.take i,
      (scanComponents o.src).root.getD []
        ++ ((scanComponents o.src).relative.take i).map Component.normal⟩)
    _ [] ?_ ?_]
  · simp [expectedAncestors]
  · rw [List.pairwise_reverse]
    have hp := (List.Pairwise.and_mem).mp
      (List.pairwise_lt_range' 1 ((scanComponents o.src).relative.length - 1))
    refine hp.imp ?_
    intro i j ⟨hi, hj, hij⟩
    apply object_cmp_lt_of_rel
    exact compareLex_take_lt _ i j hij
      (by
        have := List.mem_range'_1.mp hj
        omega)
  · intro i _ x hx
    simp at hx

/-- C4 witness: on `C:\a\b\f` with all ancestors directories, resolution
returns the two-descriptor set `{a, a\b}` with the stated shape. -/
theorem c4_witness :
    (Object.resolve_relative_path fsTrue (Object.new srcABF) true).result
        = .ok (expectedAncestors ((scanComponents srcABF).root.getD [])
            (scanComponents srcABF).relative)
      ∧ (expectedAncestors ((scanComponents srcABF).root.getD [])
          (scanComponents srcABF).relative).length
          = (scanComponents srcABF).relative.length - 1
      ∧ (expectedAncestors ((scanComponents srcABF).root.getD [])
          (scanComponents srcABF).relative).Nodup
      ∧ (expectedAncestors ((scanComponents srcABF).root.getD [])
          (scanComponents srcABF).relative).Pairwise
          (fun x y => x.relative_path = y.relative_path.take x.relative_path.length
            ∧ x ≠ y) :=
  c4_ancestor_set (Object.new srcABF) fsTrue rfl rfl (by decide) (by decide)

/-! ## C1 — the image handle across `create_file` -/

/-- An environment whose `CreateFileW` (source open) fails. -/
def envOpenFail : CreateFileEnv :=
  ⟨false, true, 0, true, 0, true, true, [], [], true⟩

/-- C1, counterexample: with the session holding an image handle, a
`create_file` call whose source open fails returns an error and leaves
the session with **no** image handle — the taken wrapper was dropped
and the engine handle closed — refuting the claim that the handle's
ownership returns to the session after an error. -/
theorem c1_counterexample :
    (Image.create_file stOpen envOpenFail).result = .error .sourceOpenFailed
      ∧ (Image.create_file stOpen envOpenFail).state.image_handle = none
      ∧ (Image.create_file stOpen envOpenFail).imageCloses = 1 :=
  ⟨rfl, rfl, rfl⟩

/-- C1 (amended): for every `create_file` call made while the session
holds an image handle, the handle is taken out of the session at entry;
if any step inside fails, the handle is **not** returned — the wrapper
is dropped, releasing the handle to the engine (`CimCloseImage`)
exactly once, and the session is left without a handle (so a retry or a
later commit fails with the not-open error); only on success is the
handle restored to the session, with no release. -/
theorem c1_handle_not_returned_on_error (st : ImageState) (env : CreateFileEnv)
    (h : Nat) (hh : st.image_handle = some h) :
    ((∃ e, (Image.create_file st env).result = .error e) →
        (Image.create_file st env).state.image_handle = none
        ∧ (Image.create_file st env).imageCloses = 1)
    ∧ ((Image.create_file st env).result = .ok () →
        (Image.create_file st env).state.image_handle = some h
        ∧ (Image.create_file st env).imageCloses = 0) := by
  obtain ⟨nm, rt, ih, vol⟩ := st
  dsimp only at hh
  subst hh
  unfold Image.create_file
  dsimp only
  repeat' split
  all_goals
    refine ⟨fun hx => ?_, fun hy => ?_⟩ <;>
      first
        | exact ⟨rfl, rfl⟩
        | exact nomatch hy
        | (obtain ⟨e2, he2⟩ := hx; exact nomatch he2)

/-- C1 witness: the amended statement at the failed-source-open input. -/
theorem c1_witness :
    (Image.create_file stOpen envOpenFail).state.image_handle = none
      ∧ (Image.create_file stOpen envOpenFail).imageCloses = 1 :=
  (c1_handle_not_returned_on_error stOpen envOpenFail 1 rfl).1
    ⟨.sourceOpenFailed, rfl⟩

/-! ## C2 — the stream handle across `create_file` -/

/-- An environment in which `CimCreateFile` succeeds (a stream handle
exists), the first `ReadFile` returns 5 bytes, and the first
`CimWriteStream` fails. -/
def envWriteFail : CreateFileEnv :=
  ⟨true, true, 0, true, 5, true, true, [some 5, some 0], [false], true⟩

/-- C2 (code bug): on a call where the engine stream handle has been
obtained and a `CimWriteStream` then fails mid-copy, `create_file`
returns the error **without ever calling `CimCloseStream`** — the
stream handle is left open on that exit path, contradicting the claim
(and the spec) that the stream handle is closed exactly once on every
exit path. -/
theorem c2_stream_left_open_on_write_failure :
    (Image.create_file stOpen envWriteFail).streamCreated = true
      ∧ (Image.create_file stOpen envWriteFail).result = .error .writeFailed
      ∧ (Image.create_file stOpen envWriteFail).writes = [5]
      ∧ (Image.create_file stOpen envWriteFail).streamCloses = 0 :=
  ⟨rfl, rfl, rfl, rfl⟩

/-! ## C5 — the 64 KiB copy loop -/

/-- C5 (confirmed): against a fully successful environment for a source
of size `n`: when the source is not a directory, the call succeeds and
issues exactly the 64 KiB-bounded chunks of `n` followed by the final
zero-length end-of-stream write, closing the stream once, with the
metadata `FileSize` equal to `n` and every write at most 65536 bytes;
when the source is a directory the copy loop is never entered (no
writes at all), the metadata `FileSize` is 0, and the stream is still
closed once. -/
theorem c5_copy_in_chunks (st : ImageState) (h : Nat) (attrs n : Nat)
    (hh : st.image_handle = some h) :
    (attrs &&& FILE_ATTRIBUTE_DIRECTORY = 0 →
        (Image.create_file st (happyEnv attrs n)).result = .ok ()
        ∧ (Image.create_file st (happyEnv attrs n)).writes = chunkSizes n ++ [0]
        ∧ (Image.create_file st (happyEnv attrs n)).streamCloses = 1
        ∧ (Image.create_file st (happyEnv attrs n)).metaFileSize = n
        ∧ ∀ w ∈ (Image.create_file st (happyEnv attrs n)).writes, w ≤ 65536)
    ∧ (attrs &&& FILE_ATTRIBUTE_DIRECTORY ≠ 0 →
        (Image.create_file st (happyEnv attrs n)).result = .ok ()
        ∧ (Image.create_file st (happyEnv attrs n)).writes = []
        ∧ (Image.create_file st (happyEnv attrs n)).streamCloses = 1
        ∧ (Image.create_file st (happyEnv attrs n)).metaFileSize = 0) := by
  obtain ⟨nm, rt, ih, vol⟩ := st
  dsimp only at hh
  subst hh
  have hcl := copyLoop_happy (chunkSizes n) (fun x hx => (chunkSizes_bounds n x hx).1)
  constructor
  · intro hd
    have he : Image.create_file ⟨nm, rt, some h, vol⟩ (happyEnv attrs n)
        = ⟨⟨nm, rt, some h, vol⟩, .ok (), true, 1, 0, chunkSizes n ++ [0], n⟩ := by
      simp only [Image.create_file, happyEnv, happyReads, hd, hcl]
      simp
    rw [he]
    refine ⟨rfl, rfl, rfl, rfl, ?_⟩
    intro w hw
    dsimp only at hw
    rcases List.mem_append.mp hw with h2 | h2
    · exact (chunkSizes_bounds n w h2).2
    · simp at h2
      omega
  · intro hd
    have he : Image.create_file ⟨nm, rt, some h, vol⟩ (happyEnv attrs n)
        = ⟨⟨nm, rt, some h, vol⟩, .ok (), true, 1, 0, [], 0⟩ := by
      simp only [Image.create_file, happyEnv, happyReads, hd]
      simp [hd]
    rw [he]
    exact ⟨rfl, rfl, rfl, rfl⟩

/-- C5 witness: a 70000-byte regular file (attributes 0). -/
theorem c5_witness :
    (Image.create_file stOpen (happyEnv 0 70000)).result = .ok ()
      ∧ (Image.create_file stOpen (happyEnv 0 70000)).writes = chunkSizes 70000 ++ [0]
      ∧ (Image.create_file stOpen (happyEnv 0 70000)).streamCloses = 1
      ∧ (Image.create_file stOpen (happyEnv 0 70000)).metaFileSize = 70000
      ∧ ∀ w ∈ (Image.create_file stOpen (happyEnv 0 70000)).writes, w ≤ 65536 :=
  (c5_copy_in_chunks stOpen 1 0 70000 rfl).1 (by decide)

/-! ## C6 — commit consumes the handle -/

/-- C6 (confirmed): `commit` on a session holding a handle always
removes the handle (and releases it to the engine exactly once),
whether the engine accepts or rejects the commit; a second `commit`
then fails with the not-open error (`STATUS_UNSUCCESSFUL`) without the
engine's commit being called again. -/
theorem c6_commit_consumes_handle (st : ImageState) (h : Nat) (ok1 ok2 : Bool)
    (hh : st.image_handle = some h) :
    (Image.commit st ok1).state.image_handle = none
      ∧ (Image.commit st ok1).engineCalls = 1
      ∧ (Image.commit st ok1).imageCloses = 1
      ∧ (Image.commit (Image.commit st ok1).state ok2).result = .error .notOpen
      ∧ (Image.commit (Image.commit st ok1).state ok2).engineCalls = 0 := by
  obtain ⟨nm, rt, ih, vol⟩ := st
  dsimp only at hh
  subst hh
  simp [Image.commit]

/-- C6 witness: an engine-rejected commit followed by a second commit. -/
theorem c6_witness :
    (Image.commit stOpen false).state.image_handle = none
      ∧ (Image.commit stOpen false).engineCalls = 1
      ∧ (Image.commit stOpen false).imageCloses = 1
      ∧ (Image.commit (Image.commit stOpen false).state true).result = .error .notOpen
      ∧ (Image.commit (Image.commit stOpen false).state true).engineCalls = 0 :=
  c6_commit_consumes_handle stOpen 1 false true rfl

/-! ## C7 — mount identifier selection -/

/-- C7 (confirmed): `mount` selects the identifier in order — the
caller-supplied string if given, failing with the invalid-argument
error when it does not parse; else the cached session identifier; else
a freshly generated one, failing with the id-generation error when the
platform facility errors — and on engine-mount failure the selected
identifier is not stored on the session (the cached-id branch even
leaves the session with no identifier, having taken it out); on success
the selected identifier is stored and returned. -/
theorem c7_mount_id_selection (st : ImageState) (env : MountEnv) (s : String)
    (g : Guid) :
    (env.parsed = none →
        Image.mount st (some s) env = ⟨st, .error .invalidArg, 0, none⟩)
    ∧ (env.parsed = some g →
        (Image.mount st (some s) env).engineGuid = some g)
    ∧ (st.volume = some g →
        (Image.mount st none env).engineGuid = some g)
    ∧ (st.volume = none → env.uuid = some g →
        (Image.mount st none env).engineGuid = some g)
    ∧ (st.volume = none → env.uuid = none →
        Image.mount st none env = ⟨st, .error .idGenFailed, 0, none⟩)
    ∧ (∀ vg, env.mountOk = false →
        (Image.mount st vg env).state.volume
          = (if vg = none then none else st.volume))
    ∧ (∀ vg gsel, env.mountOk = true →
        (Image.mount st vg env).engineGuid = some gsel →
        (Image.mount st vg env).state.volume = some gsel
          ∧ (Image.mount st vg env).result = .ok gsel) := by
  obtain ⟨nm, rt, ih, vol⟩ := st
  obtain ⟨p, u, m⟩ := env
  refine ⟨?_, ?_, ?_, ?_, ?_, ?_, ?_⟩
  · intro hp; subst hp; simp [Image.mount]
  · intro hp; subst hp
    cases m <;> simp [Image.mount]
  · intro hv; subst hv
    cases m <;> simp [Image.mount]
  · intro hv hu; subst hv; subst hu
    cases m <;> simp [Image.mount]
  · intro hv hu; subst hv; subst hu
    simp [Image.mount]
  · intro vg hm; subst hm
    cases vg with
    | none =>
      cases vol with
      | none => cases u <;> simp [Image.mount]
      | some g2 => simp [Image.mount]
    | some s2 => cases p <;> simp [Image.mount]
  · intro vg gsel hm hguid
    subst hm
    cases vg with
    | none =>
      cases vol with
      | none =>
        cases u with
        | none => simp [Image.mount] at hguid
        | some g2 =>
          simp [Image.mount] at hguid ⊢
          simp [hguid]
      | some g2 =>
        simp [Image.mount] at hguid ⊢
        simp [hguid]
    | some s2 =>
      cases p with
      | none => simp [Image.mount] at hguid
      | some g2 =>
        simp [Image.mount] at hguid ⊢
        simp [hguid]

/-- C7 witness: the cached identifier is used when no explicit one is
given; a failing UUID facility with nothing cached yields the
id-generation error; a failed engine mount does not cache. -/
theorem c7_witness :
    (Image.mount ⟨"img", "root", none, some 7⟩ none ⟨none, some 9, true⟩).engineGuid
        = some 7
      ∧ Image.mount ⟨"img", "root", none, none⟩ none ⟨none, none, true⟩
          = ⟨⟨"img", "root", none, none⟩, .error .idGenFailed, 0, none⟩
      ∧ (Image.mount ⟨"img", "root", none, some 7⟩ none
          ⟨none, some 9, false⟩).state.volume = none :=
  ⟨(c7_mount_id_selection ⟨"img", "root", none, some 7⟩ ⟨none, some 9, true⟩
      "x" 7).2.2.1 rfl,
    (c7_mount_id_selection ⟨"img", "root", none, none⟩ ⟨none, none, true⟩
      "x" 0).2.2.2.2.1 rfl rfl,
    by
      have := (c7_mount_id_selection ⟨"img", "root", none, some 7⟩
        ⟨none, some 9, false⟩ "x" 7).2.2.2.2.2.1 none rfl
      simpa using this⟩

/-! ## C9 — a failed mount drops the cached identifier -/

/-- A mount without an explicit identifier on a session with a cached
identifier, when the engine rejects it, takes the cached identifier out
and does not restore it. -/
theorem mount_cached_fail (st : ImageState) (env : MountEnv) (g : Guid)
    (hv : st.volume = some g) (hm : env.mountOk = false) :
    Image.mount st none env
      = ⟨{ st with volume := none }, .error .mountFailed, 1, some g⟩ := by
  obtain ⟨nm, rt, ih, vol⟩ := st
  obtain ⟨p, u, m⟩ := env
  subst hv
  subst hm
  simp [Image.mount]

/-- C9 (confirmed): after a successful `mount` cached identifier `g`, a
second `mount` without an explicit identifier whose engine call fails
removes the cached identifier (it was taken out and is not restored),
so a subsequent `mount_volume` fails with the no-volume-cached error
even though the earlier mount had succeeded and cached `g`. -/
theorem c9_failed_mount_drops_cached_id (st0 : ImageState) (env1 env2 : MountEnv)
    (g : Guid) (b : Bool)
    (h1 : (Image.mount st0 none env1).result = .ok g)
    (h2 : env2.mountOk = false) :
    (Image.mount st0 none env1).state.volume = some g
    ∧ (Image.mount (Image.mount st0 none env1).state none env2).result
        = .error .mountFailed
    ∧ (Image.mount (Image.mount st0 none env1).state none env2).engineCalls = 1
    ∧ (Image.mount (Image.mount st0 none env1).state none env2).state.volume = none
    ∧ Image.mount_volume
        (Image.mount (Image.mount st0 none env1).state none env2).state b
        = .error .noVolumeCached := by
  have hstate : (Image.mount st0 none env1).state.volume = some g := by
    obtain ⟨nm, rt, ih, vol⟩ := st0
    obtain ⟨p1, u1, m1⟩ := env1
    cases vol with
    | none =>
      cases u1 with
      | none => simp [Image.mount] at h1
      | some g2 =>
        cases m1 with
        | false => simp [Image.mount] at h1
        | true =>
          simp [Image.mount] at h1 ⊢
          simp [h1]
    | some g2 =>
      cases m1 with
      | false => simp [Image.mount] at h1
      | true =>
        simp [Image.mount] at h1 ⊢
        simp [h1]
  rw [mount_cached_fail _ env2 g hstate h2]
  exact ⟨hstate, rfl, rfl, rfl, rfl⟩

/-- C9 witness: generate-and-mount succeeds caching id 7; the next
mount fails at the engine; `mount_volume` then reports no cached
volume. -/
theorem c9_witness :
    (Image.mount ⟨"img", "root", none, none⟩ none ⟨none, some 7, true⟩).state.volume
        = some 7
    ∧ (Image.mount
        (Image.mount ⟨"img", "root", none, none⟩ none ⟨none, some 7, true⟩).state
        none ⟨none, none, false⟩).result = .error .mountFailed
    ∧ (Image.mount
        (Image.mount ⟨"img", "root", none, none⟩ none ⟨none, some 7, true⟩).state
        none ⟨none, none, false⟩).engineCalls = 1
    ∧ (Image.mount
        (Image.mount ⟨"img", "root", none, none⟩ none ⟨none, some 7, true⟩).state
        none ⟨none, none, false⟩).state.volume = none
    ∧ Image.mount_volume
        (Image.mount
          (Image.mount ⟨"img", "root", none, none⟩ none ⟨none, some 7, true⟩).state
          none ⟨none, none, false⟩).state true
        = .error .noVolumeCached :=
  c9_failed_mount_drops_cached_id ⟨"img", "root", none, none⟩
    ⟨none, some 7, true⟩ ⟨none, none, false⟩ 7 true rfl rfl

end Cimfs
